import Mathlib

/-!
Verification of the irrigation analytics core (Go sources under
`service/irrigation_analytics_service.go`, `repository/irrigation_data_repository.go`
and the analytics controller) against its natural-language specification.

Modelling conventions:
* Go `float64` quantities (volumes, efficiencies, percentages) are modelled as `Rat`.
  The claims under study are exact algebraic identities of the code's arithmetic;
  `float64` rounding is idealized away.
* Go pointers used as nullable values (`*float64`, `*int`, struct pointers) are
  modelled as `Option`.
* `time.Time` is modelled by a `DateTime` structure carrying the calendar fields
  the code reads (`Year()`, `Month()`, `Day()`) plus the time of day; ordering is
  by a derived linear timestamp.  All `time.Now()` calls inside a single request
  are modelled as one instant, passed in explicitly (`now : DateTime` for the
  date-range default, `nowYear : Int` for `time.Now().Year()`).
* The SQL queries of the repository are shallowly embedded as list computations
  over a database given as a `List IrrigationRecord`.
-/

namespace IrrigationAnalytics

/-! ## Repository row types (repository/irrigation_data_repository.go) -/

/-- Row type `AnalyticsAggregation`: one aggregated time bucket.
`period` is the bucket boundary as a day number (the `DATE_TRUNC` value). -/
structure AnalyticsAggregation where
  period : Int
  year : Int
  totalRealAmount : Rat
  totalNominalAmount : Rat
  eventCount : Int
  avgEfficiency : Option Rat
  minEfficiency : Option Rat
  maxEfficiency : Option Rat
  deriving Repr, DecidableEq

/-- Row type `YoYAnalyticsData`: one aggregated calendar year. -/
structure YoYAnalyticsData where
  year : Int
  totalRealAmount : Rat
  totalNominalAmount : Rat
  eventCount : Int
  avgEfficiency : Option Rat
  minEfficiency : Option Rat
  maxEfficiency : Option Rat
  deriving Repr, DecidableEq

/-- Row type `SectorAnalyticsData`: one aggregated sector. -/
structure SectorAnalyticsData where
  sectorID : Nat
  sectorName : String
  totalRealAmount : Rat
  totalNominalAmount : Rat
  avgEfficiency : Option Rat
  deriving Repr, DecidableEq

/-! ## Response model types (model, analytics model file) -/

/-- `model.EfficiencyRange`. -/
structure EfficiencyRange where
  min : Rat
  max : Rat
  deriving Repr, DecidableEq

/-- `model.AnalyticsMetrics`. -/
structure AnalyticsMetrics where
  totalIrrigationVolumeMM : Rat
  totalIrrigationEvents : Int
  averageEfficiency : Option Rat
  efficiencyRange : Option EfficiencyRange
  deriving Repr, DecidableEq

/-- `model.YoYComparison` (pointer-valued metric fields are `Option`). -/
structure YoYComparison where
  totalIrrigationVolumeMM : Option Rat
  totalIrrigationEvents : Option Int
  averageEfficiency : Option Rat
  efficiencyRange : Option EfficiencyRange
  dataIncomplete : Bool
  note : String
  deriving Repr, DecidableEq

/-- `model.PeriodComparison`: the three percentage-change fields. -/
structure PeriodComparison where
  volumeChangePercent : Option Rat
  eventsChangePercent : Option Rat
  efficiencyChangePercent : Option Rat
  deriving Repr, DecidableEq

/-- `model.PeriodComparisonSet`. -/
structure PeriodComparisonSet where
  vsPeriod1Y : Option PeriodComparison
  vsPeriod2Y : Option PeriodComparison
  deriving Repr, DecidableEq

/-- `model.TimeSeriesEntry`. -/
structure TimeSeriesEntry where
  date : Int
  nominalAmountMM : Rat
  realAmountMM : Rat
  efficiency : Option Rat
  eventCount : Int
  deriving Repr, DecidableEq

/-- `model.SectorBreakdown`. -/
structure SectorBreakdown where
  sectorID : Nat
  sectorName : String
  totalVolumeMM : Rat
  averageEfficiency : Option Rat
  deriving Repr, DecidableEq

/-- `model.PaginationMetadata`. -/
structure PaginationMetadata where
  page : Int
  limit : Int
  totalCount : Int
  totalPages : Int
  deriving Repr, DecidableEq

/-- `model.TimeSeries`. -/
structure TimeSeries where
  data : List TimeSeriesEntry
  pagination : PaginationMetadata
  deriving Repr, DecidableEq

/-! ## Service: pure metric computations
(service/irrigation_analytics_service.go) -/

/-- `calculateMetrics` (service lines 136-193): reduce the fetched buckets to
current-period summary metrics, mirroring the Go loop over `data`. -/
def calculateMetrics (data : List AnalyticsAggregation) : AnalyticsMetrics :=
  if data.isEmpty then
    { totalIrrigationVolumeMM := 0
      totalIrrigationEvents := 0
      averageEfficiency := none
      efficiencyRange := none }
  else
    let totalVolume := data.foldl (fun acc entry => acc + entry.totalRealAmount) 0
    let totalEvents := data.foldl (fun acc entry => acc + entry.eventCount) 0
    let efficiencies := data.filterMap (fun entry => entry.avgEfficiency)
    let minEfficiency := data.foldl
      (fun acc entry =>
        match entry.minEfficiency, acc with
        | some m, none => some m
        | some m, some cur => if m < cur then some m else some cur
        | none, _ => acc) none
    let maxEfficiency := data.foldl
      (fun acc entry =>
        match entry.maxEfficiency, acc with
        | some m, none => some m
        | some m, some cur => if m > cur then some m else some cur
        | none, _ => acc) none
    if 0 < efficiencies.length then
      { totalIrrigationVolumeMM := totalVolume
        totalIrrigationEvents := totalEvents
        averageEfficiency := some (efficiencies.sum / (efficiencies.length : Rat))
        efficiencyRange :=
          match minEfficiency, maxEfficiency with
          | some mn, some mx => some { min := mn, max := mx }
          | _, _ => none }
    else
      { totalIrrigationVolumeMM := totalVolume
        totalIrrigationEvents := totalEvents
        averageEfficiency := none
        efficiencyRange := none }

/-- `getYoYMetrics` (service lines 196-241): convert one year's YoY data to the
response comparison object.  `yoyData` is the year-keyed map; absence of a year
means no data.  The two early-return branches of the Go code produce a fresh
object carrying only the incompleteness flag and the note. -/
def getYoYMetrics (yoyData : Int → Option YoYAnalyticsData) (year : Int)
    (yearLabel : String) : YoYComparison :=
  match yoyData year with
  | none =>
    { totalIrrigationVolumeMM := none
      totalIrrigationEvents := none
      averageEfficiency := none
      efficiencyRange := none
      dataIncomplete := true
      note := "No data available for " ++ yearLabel ++ " (" ++ toString year ++ ")" }
  | some data =>
    if 0 < data.eventCount then
      { totalIrrigationVolumeMM :=
          if 0 < data.totalRealAmount then some data.totalRealAmount else none
        totalIrrigationEvents := some data.eventCount
        averageEfficiency := data.avgEfficiency
        efficiencyRange :=
          match data.minEfficiency, data.maxEfficiency with
          | some mn, some mx => some { min := mn, max := mx }
          | _, _ => none
        dataIncomplete := false
        note := "" }
    else
      { totalIrrigationVolumeMM := none
        totalIrrigationEvents := none
        averageEfficiency := none
        efficiencyRange := none
        dataIncomplete := true
        note := "No events found for " ++ yearLabel ++ " (" ++ toString year ++ ")" }

/-- `calculatePercentageChanges` (service lines 264-291): percentage deltas
between the current period and one previous period. -/
def calculatePercentageChanges (current : AnalyticsMetrics) (prevVolume : Rat)
    (prevEvents : Int) (prevEfficiency : Option Rat) : PeriodComparison :=
  { volumeChangePercent :=
      if 0 < prevVolume then
        some (((current.totalIrrigationVolumeMM - prevVolume) / prevVolume) * 100)
      else none
    eventsChangePercent :=
      if 0 < prevEvents then
        some ((((current.totalIrrigationEvents : Rat) - (prevEvents : Rat)) /
          (prevEvents : Rat)) * 100)
      else none
    efficiencyChangePercent :=
      match prevEfficiency, current.averageEfficiency with
      | some pe, some ce =>
        if 0 < pe then some (((ce - pe) / pe) * 100) else none
      | _, _ => none }

/-- `calculatePeriodComparison` (service lines 244-261).  The Go code
dereferences `TotalIrrigationEvents` without a nil check; the dereference is
modelled by `Option.getD 0` (the safety claim shows the default is never
used for comparisons produced by `getYoYMetrics`). -/
def calculatePeriodComparison (current : AnalyticsMetrics)
    (yoY1 yoY2 : YoYComparison) : PeriodComparisonSet :=
  { vsPeriod1Y :=
      match yoY1.dataIncomplete, yoY1.totalIrrigationVolumeMM with
      | false, some v =>
        some (calculatePercentageChanges current v
          (yoY1.totalIrrigationEvents.getD 0) yoY1.averageEfficiency)
      | _, _ => none
    vsPeriod2Y :=
      match yoY2.dataIncomplete, yoY2.totalIrrigationVolumeMM with
      | false, some v =>
        some (calculatePercentageChanges current v
          (yoY2.totalIrrigationEvents.getD 0) yoY2.averageEfficiency)
      | _, _ => none }

/-! ## Calendar model (`time.Time`, UTC) -/

/-- A UTC instant as the Go code observes it via `Year()`, `Month()`, `Day()`
and the clock fields.  `time.Date` normalization of out-of-range fields is not
modelled; every construction in the embedded code uses in-range fields taken
from an existing instant. -/
structure DateTime where
  year : Int
  month : Nat
  day : Nat
  hour : Nat
  minute : Nat
  second : Nat
  nanos : Nat
  deriving Repr, DecidableEq

/-- `time.Date(y, m, d, hh, mi, ss, ns, time.UTC)`. -/
def timeDate (y : Int) (m d hh mi ss ns : Nat) : DateTime :=
  { year := y, month := m, day := d, hour := hh, minute := mi, second := ss, nanos := ns }

/-- Day number of a Gregorian calendar date, days since 1970-01-01
(standard civil-from-days arithmetic). -/
def dayNumberOfYMD (y : Int) (m d : Nat) : Int :=
  let yy : Int := if m ≤ 2 then y - 1 else y
  let era : Int := (if 0 ≤ yy then yy else yy - 399) / 400
  let yoe : Int := yy - era * 400
  let mp : Int := ((m : Int) + 9) % 12
  let doy : Int := (153 * mp + 2) / 5 + (d : Int) - 1
  let doe : Int := yoe * 365 + yoe / 4 - yoe / 100 + doy
  era * 146097 + doe - 719468

/-- Day number of an instant. -/
def dayNumber (t : DateTime) : Int :=
  dayNumberOfYMD t.year t.month t.day

/-- Calendar date from a day number (inverse of `dayNumberOfYMD`). -/
def civilFromDays (z0 : Int) : Int × Nat × Nat :=
  let z := z0 + 719468
  let era : Int := (if 0 ≤ z then z else z - 146096) / 146097
  let doe : Nat := (z - era * 146097).toNat
  let yoe : Nat := (doe - doe / 1460 + doe / 36524 - doe / 146096) / 365
  let y : Int := (yoe : Int) + era * 400
  let doy : Nat := doe - (365 * yoe + yoe / 4 - yoe / 100)
  let mp : Nat := (5 * doy + 2) / 153
  let d : Nat := doy - (153 * mp + 2) / 5 + 1
  let m : Nat := if mp < 10 then mp + 3 else mp - 9
  (if m ≤ 2 then y + 1 else y, m, d)

/-- Nanoseconds since the start of the day. -/
def nanosOfDay (t : DateTime) : Nat :=
  ((t.hour * 60 + t.minute) * 60 + t.second) * 1000000000 + t.nanos

/-- Linear timestamp giving the ordering of instants. -/
def stamp (t : DateTime) : Int :=
  dayNumber t * 86400000000000 + (nanosOfDay t : Int)

/-- `a` is at or before `b` (the SQL comparisons `start_time >= ?`, `<= ?`). -/
def timeLE (a b : DateTime) : Bool :=
  decide (stamp a ≤ stamp b)

/-- `t.AddDate(0, 0, n)`: shift by whole days, keeping the clock time. -/
def addDays (t : DateTime) (n : Int) : DateTime :=
  let c := civilFromDays (dayNumber t + n)
  { year := c.1, month := c.2.1, day := c.2.2,
    hour := t.hour, minute := t.minute, second := t.second, nanos := t.nanos }

/-! ## Database model -/

/-- `model.IrrigationData`: one irrigation event row (the fields the analytics
queries read). -/
structure IrrigationRecord where
  farmID : Nat
  sectorID : Nat
  startTime : DateTime
  nominalAmount : Rat
  realAmount : Rat
  deriving Repr, DecidableEq

/-- The SQL efficiency expression
`CASE WHEN nominal_amount > 0 THEN real_amount / nominal_amount ELSE NULL END`. -/
def recordEfficiency (r : IrrigationRecord) : Option Rat :=
  if 0 < r.nominalAmount then some (r.realAmount / r.nominalAmount) else none

/-- Rows of `irrigation_data` matching
`farm_id = ? AND start_time >= ? AND start_time <= ?`. -/
def matchingRecords (db : List IrrigationRecord) (farmID : Nat)
    (startTime endTime : DateTime) : List IrrigationRecord :=
  db.filter (fun r =>
    r.farmID == farmID && timeLE startTime r.startTime && timeLE r.startTime endTime)

/-- `DATE_TRUNC(granularity, start_time)` as the day number of the bucket
boundary: the record's day for `day`, the preceding Monday for `week`
(1970-01-01 is a Thursday), the first of the month for `month`.  Mirrors the
Go mapping `daily → 'day'`, `weekly → 'week'`, `monthly → 'month'`, anything
else defaulting to `'day'`. -/
def truncIndex (aggregation : String) (t : DateTime) : Int :=
  if aggregation == "weekly" then
    let d := dayNumber t
    d - ((d + 3) % 7)
  else if aggregation == "monthly" then
    dayNumberOfYMD t.year t.month 1
  else
    dayNumber t

/-- The `GROUP BY DATE_TRUNC(...), year` key of a record. -/
def bucketKey (aggregation : String) (r : IrrigationRecord) : Int × Int :=
  (truncIndex aggregation r.startTime, r.startTime.year)

/-- One grouped output row of the bucketed-aggregates query. -/
def bucketRow (key : Int × Int) (rs : List IrrigationRecord) : AnalyticsAggregation :=
  let effs := rs.filterMap recordEfficiency
  { period := key.1
    year := key.2
    totalRealAmount := (rs.map (fun r => r.realAmount)).sum
    totalNominalAmount := (rs.map (fun r => r.nominalAmount)).sum
    eventCount := (rs.length : Int)
    avgEfficiency :=
      if effs.isEmpty then none else some (effs.sum / (effs.length : Rat))
    minEfficiency := effs.min?
    maxEfficiency := effs.max? }

/-- Ordering of bucket keys: `ORDER BY period ASC` (year as a deterministic
tie-break). -/
def keyLE (a b : Int × Int) : Prop :=
  a.1 < b.1 ∨ (a.1 = b.1 ∧ a.2 ≤ b.2)

instance : DecidableRel keyLE := fun a b => by
  unfold keyLE; infer_instance

/-- Sorted list of bucket keys. -/
def sortKeys (l : List (Int × Int)) : List (Int × Int) :=
  l.insertionSort keyLE

/-- `GetAnalyticsForFarmByDateRange` (repository lines 179-228): returns the
page of bucket rows selected by `LIMIT`/`OFFSET` and, as second component, the
result of the count query — which counts the matching *records*
(`countQuery.Count`), not the buckets. -/
def getAnalyticsForFarmByDateRange (db : List IrrigationRecord) (farmID : Nat)
    (startTime endTime : DateTime) (aggregation : String)
    (limit offset : Int) : List AnalyticsAggregation × Int :=
  let matching := matchingRecords db farmID startTime endTime
  let totalCount : Int := (matching.length : Int)
  let keys := sortKeys ((matching.map (bucketKey aggregation)).dedup)
  let rows := keys.map (fun k =>
    bucketRow k (matching.filter (fun r => bucketKey aggregation r == k)))
  (((rows.drop offset.toNat).take limit.toNat), totalCount)

/-- Modelled from the spec: `totalBucketCount` as §4.1 describes it — "the
count of distinct buckets in range".  Used only to compare the spec's wording
with what the code's count query actually returns. -/
def distinctBucketCount (db : List IrrigationRecord) (farmID : Nat)
    (startTime endTime : DateTime) (aggregation : String) : Nat :=
  ((matchingRecords db farmID startTime endTime).map
    (fun r => truncIndex aggregation r.startTime)).dedup.length

/-- One `UNION ALL` arm of the YoY query: aggregate the records of one
sub-range grouped by `EXTRACT(YEAR FROM start_time)`. -/
def yoyYearRows (db : List IrrigationRecord) (farmID : Nat)
    (startTime endTime : DateTime) : List YoYAnalyticsData :=
  let matching := matchingRecords db farmID startTime endTime
  let years := (matching.map (fun r => r.startTime.year)).dedup
  years.map (fun y =>
    let rs := matching.filter (fun r => r.startTime.year == y)
    let effs := rs.filterMap recordEfficiency
    { year := y
      totalRealAmount := (rs.map (fun r => r.realAmount)).sum
      totalNominalAmount := (rs.map (fun r => r.nominalAmount)).sum
      eventCount := (rs.length : Int)
      avgEfficiency :=
        if effs.isEmpty then none else some (effs.sum / (effs.length : Rat))
      minEfficiency := effs.min?
      maxEfficiency := effs.max? })

/-- The three YoY sub-ranges computed by `GetYoYComparison` (repository lines
253-259): anchored at `time.Now().Year()` (`nowYear`), substituting the year
while copying month and day from the requested range. -/
def yoyRanges (nowYear : Int) (startTime endTime : DateTime) :
    List (DateTime × DateTime) :=
  [ (timeDate nowYear startTime.month startTime.day 0 0 0 0,
     timeDate nowYear endTime.month endTime.day 23 59 59 0),
    (timeDate (nowYear - 1) startTime.month startTime.day 0 0 0 0,
     timeDate (nowYear - 1) endTime.month endTime.day 23 59 59 0),
    (timeDate (nowYear - 2) startTime.month startTime.day 0 0 0 0,
     timeDate (nowYear - 2) endTime.month endTime.day 23 59 59 0) ]

/-- `GetYoYComparison` (repository lines 244-319): the concatenated rows of the
three `UNION ALL` arms.  The `aggregation` argument exists in the Go signature
but is unused there. -/
def getYoYComparison (db : List IrrigationRecord) (nowYear : Int) (farmID : Nat)
    (startTime endTime : DateTime) (_aggregation : String) :
    List YoYAnalyticsData :=
  ((yoyRanges nowYear startTime endTime).map
    (fun p => yoyYearRows db farmID p.1 p.2)).flatten

/-- The Go `map[int]YoYAnalyticsData` built from the query rows: later rows
with the same year overwrite earlier ones; lookup of an absent year is `none`. -/
def yoyMapLookup (results : List YoYAnalyticsData) (y : Int) :
    Option YoYAnalyticsData :=
  results.foldl (fun acc r => if r.year == y then some r else acc) none

/-- `GetSectorBreakdownForFarm` (repository lines 332-365).  The join to
`irrigation_sectors` for display names is modelled by `sectorNames` (the schema
forces every record's sector to exist). -/
def getSectorBreakdownForFarm (db : List IrrigationRecord)
    (sectorNames : Nat → String) (farmID : Nat) (sectorID : Option Nat)
    (startTime endTime : DateTime) : List SectorAnalyticsData :=
  let base := matchingRecords db farmID startTime endTime
  let matching : List IrrigationRecord :=
    match sectorID with
    | some sid => base.filter (fun r => r.sectorID == sid)
    | none => base
  let ids := ((matching.map (fun r => r.sectorID)).dedup).insertionSort (· ≤ ·)
  ids.map (fun sid =>
    let rs := matching.filter (fun r => r.sectorID == sid)
    let effs := rs.filterMap recordEfficiency
    { sectorID := sid
      sectorName := sectorNames sid
      totalRealAmount := (rs.map (fun r => r.realAmount)).sum
      totalNominalAmount := (rs.map (fun r => r.nominalAmount)).sum
      avgEfficiency :=
        if effs.isEmpty then none else some (effs.sum / (effs.length : Rat)) })

/-! ## Service pipeline (service `GetAnalytics`, lines 40-133) -/

/-- `model.IrrigationAnalyticsResponse`. -/
structure IrrigationAnalyticsResponse where
  farmID : Nat
  farmName : String
  periodStart : DateTime
  periodEnd : DateTime
  aggregation : String
  metrics : AnalyticsMetrics
  samePeriod1Y : Option YoYComparison
  samePeriod2Y : Option YoYComparison
  periodComparison : Option PeriodComparisonSet
  timeSeries : TimeSeries
  sectorBreakdown : List SectorBreakdown
  deriving Repr, DecidableEq

/-- `convertTimeSeriesData` (service lines 294-309).  The Go `Date` string
("2006-01-02" format of the bucket boundary) is carried as the bucket's day
number. -/
def convertTimeSeriesData (data : List AnalyticsAggregation) :
    List TimeSeriesEntry :=
  data.map (fun item =>
    { date := item.period
      nominalAmountMM := item.totalNominalAmount
      realAmountMM := item.totalRealAmount
      efficiency := item.avgEfficiency
      eventCount := item.eventCount })

/-- `convertSectorBreakdownData` (service lines 312-325). -/
def convertSectorBreakdownData (data : List SectorAnalyticsData) :
    List SectorBreakdown :=
  data.map (fun item =>
    { sectorID := item.sectorID
      sectorName := item.sectorName
      totalVolumeMM := item.totalRealAmount
      averageEfficiency := item.avgEfficiency })

/-- Date-range normalization (service lines 54-66): default to a trailing
90-day window when either bound is absent; otherwise floor the start to
midnight and ceil the end to 23:59:59.999999999. -/
def normalizeRange (now : DateTime) (startDate endDate : Option DateTime) :
    DateTime × DateTime :=
  match startDate, endDate with
  | some sd, some ed =>
    (timeDate sd.year sd.month sd.day 0 0 0 0,
     timeDate ed.year ed.month ed.day 23 59 59 999999999)
  | _, _ =>
    let start0 := addDays now (-90)
    (timeDate start0.year start0.month start0.day 0 0 0 0, now)

/-- `int(math.Ceil(float64(totalCount) / float64(limit)))` (service line 105)
for the reachable case `limit ≥ 1` (where `float64` arithmetic on these
magnitudes is exact); `limit ≤ 0` is unreachable through the controller and is
given an arbitrary value. -/
def totalPagesOf (totalCount limit : Int) : Int :=
  if 0 < limit then (totalCount + limit - 1) / limit else 0

/-- Service `GetAnalytics` (lines 40-133), with the `time.Now()` calls of the
request modelled by the explicit `now` instant and `nowYear = time.Now().Year()`.
Repository errors cannot arise in the pure embedding, so the error early
returns vanish. -/
def getAnalyticsService (db : List IrrigationRecord) (sectorNames : Nat → String)
    (now : DateTime) (nowYear : Int) (farmID : Nat)
    (startDate endDate : Option DateTime) (sectorID : Option Nat)
    (aggregation : String) (page limit : Int) : IrrigationAnalyticsResponse :=
  let range := normalizeRange now startDate endDate
  let start := range.1
  let stop := range.2
  let fetched :=
    getAnalyticsForFarmByDateRange db farmID start stop aggregation limit
      ((page - 1) * limit)
  let timeSeries := fetched.1
  let totalCount := fetched.2
  let yoyResults := getYoYComparison db nowYear farmID start stop aggregation
  let sectorRows := getSectorBreakdownForFarm db sectorNames farmID sectorID start stop
  let timeSeriesEntries := convertTimeSeriesData timeSeries
  let sectorEntries := convertSectorBreakdownData sectorRows
  let currentMetrics := calculateMetrics timeSeries
  let yoY1 := getYoYMetrics (yoyMapLookup yoyResults) (nowYear - 1) "previous year"
  let yoY2 := getYoYMetrics (yoyMapLookup yoyResults) (nowYear - 2) "two years ago"
  let periodComparison := calculatePeriodComparison currentMetrics yoY1 yoY2
  let totalPages := totalPagesOf totalCount limit
  { farmID := farmID
    farmName := ""
    periodStart := start
    periodEnd := stop
    aggregation := aggregation
    metrics := currentMetrics
    samePeriod1Y := some yoY1
    samePeriod2Y := some yoY2
    periodComparison := some
      { vsPeriod1Y := periodComparison.vsPeriod1Y
        vsPeriod2Y := periodComparison.vsPeriod2Y }
    timeSeries :=
      { data := timeSeriesEntries
        pagination :=
          { page := page, limit := limit
            totalCount := totalCount, totalPages := totalPages } }
    sectorBreakdown := sectorEntries }

/-! ## Controller (`AnalyticsController.GetAnalytics`) -/

/-- The raw `limit` query parameter after the `"all"` comparison and
`strconv.Atoi`: the sentinel, a parsed integer, or a parse failure. -/
inductive LimitParam where
  | all
  | num (n : Int)
  | invalid
  deriving Repr, DecidableEq

/-- Page normalization (controller lines 135-138): parse failures and values
below 1 silently coerce to 1.  `none` models `strconv.Atoi` failure. -/
def normalizePage (pageParam : Option Int) : Int :=
  match pageParam with
  | some p => if p < 1 then 1 else p
  | none => 1

/-- Limit normalization (controller lines 140-151): `"all"` maps to 10000,
parsed positive values above 1000 clamp to 1000, non-positive or unparsable
values fall back to 50. -/
def normalizeLimit (limitParam : LimitParam) : Int :=
  match limitParam with
  | .all => 10000
  | .num n => if 0 < n then (if 1000 < n then 1000 else n) else 50
  | .invalid => 50

/-- Outcome of the controller: a 400 with a message, or a JSON response with a
status code.  The Go code's 500 branch (service error) is unreachable in the
pure embedding; no other outcome exists in the source — in particular there is
no 404 branch. -/
inductive ControllerResult where
  | badRequest (msg : String)
  | ok (status : Nat) (resp : IrrigationAnalyticsResponse)
  deriving Repr, DecidableEq

/-- `AnalyticsController.GetAnalytics` (controller lines 111-208), with string
parsing abstracted to its outcome: `farmIDParam` is the `strconv.ParseUint`
result; for the optional query parameters, `none` means the parameter was
absent, `some none` present but malformed, `some (some v)` parsed as `v`.
Branches mirror the Go early returns in source order. -/
def analyticsControllerGetAnalytics (db : List IrrigationRecord)
    (sectorNames : Nat → String) (now : DateTime) (nowYear : Int)
    (farmIDParam : Option Nat) (aggregation : String)
    (pageParam : Option Int) (limitParam : LimitParam)
    (startDateParam endDateParam : Option (Option DateTime))
    (sectorIDParam : Option (Option Nat)) : ControllerResult :=
  match farmIDParam with
  | none => .badRequest "invalid farm_id format"
  | some farmID =>
    if aggregation != "daily" && aggregation != "weekly" && aggregation != "monthly" then
      .badRequest "invalid aggregation type; must be daily, weekly, or monthly"
    else
      let page := normalizePage pageParam
      let limit := normalizeLimit limitParam
      match startDateParam, endDateParam, sectorIDParam with
      | some none, _, _ => .badRequest "invalid start_date format; use YYYY-MM-DD"
      | _, some none, _ => .badRequest "invalid end_date format; use YYYY-MM-DD"
      | _, _, some none => .badRequest "invalid sector_id format"
      | _, _, _ =>
        let resp := getAnalyticsService db sectorNames now nowYear farmID
          startDateParam.join endDateParam.join sectorIDParam.join
          aggregation page limit
        let incomplete1 :=
          match resp.samePeriod1Y with
          | some c => c.dataIncomplete
          | none => false
        let incomplete2 :=
          match resp.samePeriod2Y with
          | some c => c.dataIncomplete
          | none => false
        .ok (if incomplete1 || incomplete2 then 206 else 200) resp

/-! ## Concrete sample data used by witnesses and counterexamples -/

/-- A 10 mm irrigation event of farm 1 on 2024-03-01. -/
def sampleRec1 : IrrigationRecord :=
  { farmID := 1, sectorID := 1, startTime := timeDate 2024 3 1 6 0 0 0,
    nominalAmount := 1, realAmount := 10 }

/-- A 20 mm irrigation event of farm 1 on 2024-03-02. -/
def sampleRec2 : IrrigationRecord :=
  { farmID := 1, sectorID := 1, startTime := timeDate 2024 3 2 6 0 0 0,
    nominalAmount := 1, realAmount := 20 }

/-- A two-event database for farm 1, March 2024. -/
def sampleDb : List IrrigationRecord := [sampleRec1, sampleRec2]

/-! ## Helper lemmas -/

theorem foldl_add_map_sum {α M : Type} [AddCommMonoid M] (f : α → M) :
    ∀ (l : List α) (init : M),
      l.foldl (fun acc x => acc + f x) init = init + (l.map f).sum := by
  intro l
  induction l with
  | nil => intro init; simp
  | cons x xs ih => intro init; simp [ih, add_assoc]

theorem calculateMetrics_volume (data : List AnalyticsAggregation) :
    (calculateMetrics data).totalIrrigationVolumeMM =
      (data.map (fun entry => entry.totalRealAmount)).sum := by
  unfold calculateMetrics
  rcases data with _ | ⟨x, xs⟩
  · simp
  · simp only [List.isEmpty_cons, Bool.false_eq_true, if_false]
    rw [foldl_add_map_sum]
    split <;> simp

theorem calculateMetrics_events (data : List AnalyticsAggregation) :
    (calculateMetrics data).totalIrrigationEvents =
      (data.map (fun entry => entry.eventCount)).sum := by
  unfold calculateMetrics
  rcases data with _ | ⟨x, xs⟩
  · simp
  · simp only [List.isEmpty_cons, Bool.false_eq_true, if_false]
    split <;> simp <;> rw [foldl_add_map_sum]

/-! ## Claim theorems: service metric layer -/

/-- C7: for every bucket sequence, the current-period reduction computes
total volume as the sum of per-bucket real-amount sums, total events as the
sum of per-bucket counts, and average efficiency as the arithmetic mean of the
per-bucket average efficiencies that are present; when no bucket contributes
an efficiency value, average efficiency is null and the efficiency range is
absent; the empty sequence yields zero totals and null efficiency fields. -/
theorem C7_calculateMetrics_reduction (data : List AnalyticsAggregation) :
    (calculateMetrics data).totalIrrigationVolumeMM =
      (data.map (fun entry => entry.totalRealAmount)).sum ∧
    (calculateMetrics data).totalIrrigationEvents =
      (data.map (fun entry => entry.eventCount)).sum ∧
    ((data.filterMap (fun entry => entry.avgEfficiency)) ≠ [] →
      (calculateMetrics data).averageEfficiency =
        some ((data.filterMap (fun entry => entry.avgEfficiency)).sum /
          ((data.filterMap (fun entry => entry.avgEfficiency)).length : Rat))) ∧
    ((data.filterMap (fun entry => entry.avgEfficiency)) = [] →
      (calculateMetrics data).averageEfficiency = none ∧
      (calculateMetrics data).efficiencyRange = none) ∧
    (data = [] →
      calculateMetrics data =
        { totalIrrigationVolumeMM := 0, totalIrrigationEvents := 0,
          averageEfficiency := none, efficiencyRange := none }) := by
  refine ⟨calculateMetrics_volume data, calculateMetrics_events data, ?_, ?_, ?_⟩
  · intro hne
    unfold calculateMetrics
    rcases data with _ | ⟨x, xs⟩
    · simp at hne
    · simp only [List.isEmpty_cons, Bool.false_eq_true, if_false]
      rw [if_pos (by simpa [List.length_pos] using hne)]
  · intro hemp
    unfold calculateMetrics
    rcases data with _ | ⟨x, xs⟩
    · simp
    · simp only [List.isEmpty_cons, Bool.false_eq_true, if_false]
      rw [if_neg (by simp [hemp])]
      exact ⟨rfl, rfl⟩
  · intro h
    subst h
    simp [calculateMetrics]

/-- Witness for C7 at a concrete bucket list. -/
theorem C7_calculateMetrics_reduction_witness :
    (calculateMetrics
      [{ period := 0, year := 2024, totalRealAmount := 30, totalNominalAmount := 40,
         eventCount := 2, avgEfficiency := some (3/4), minEfficiency := some (7/10),
         maxEfficiency := some (4/5) }]).averageEfficiency = some (3/4) := by
  have h := (C7_calculateMetrics_reduction
    [{ period := 0, year := 2024, totalRealAmount := 30, totalNominalAmount := 40,
       eventCount := 2, avgEfficiency := some (3/4), minEfficiency := some (7/10),
       maxEfficiency := some (4/5) }]).2.2.1 (by decide)
  rw [h]
  norm_num [List.filterMap_cons]

/-- C6: for every input to the percentage-change step, each percentage change
equals ((current − previous) / previous) × 100 and is null exactly when its
own previous-period denominator is not positive; the efficiency change
additionally requires both current and previous average efficiency to be
present. -/
theorem C6_percentage_changes (current : AnalyticsMetrics) (prevVolume : Rat)
    (prevEvents : Int) (prevEfficiency : Option Rat) :
    ((calculatePercentageChanges current prevVolume prevEvents
        prevEfficiency).volumeChangePercent = none ↔ prevVolume ≤ 0) ∧
    (0 < prevVolume →
      (calculatePercentageChanges current prevVolume prevEvents
        prevEfficiency).volumeChangePercent =
        some (((current.totalIrrigationVolumeMM - prevVolume) / prevVolume) * 100)) ∧
    ((calculatePercentageChanges current prevVolume prevEvents
        prevEfficiency).eventsChangePercent = none ↔ prevEvents ≤ 0) ∧
    (0 < prevEvents →
      (calculatePercentageChanges current prevVolume prevEvents
        prevEfficiency).eventsChangePercent =
        some ((((current.totalIrrigationEvents : Rat) - (prevEvents : Rat)) /
          (prevEvents : Rat)) * 100)) ∧
    ((calculatePercentageChanges current prevVolume prevEvents
        prevEfficiency).efficiencyChangePercent = none ↔
      prevEfficiency = none ∨ current.averageEfficiency = none ∨
        ∃ pe, prevEfficiency = some pe ∧ pe ≤ 0) ∧
    (∀ pe ce, prevEfficiency = some pe → current.averageEfficiency = some ce →
      0 < pe →
      (calculatePercentageChanges current prevVolume prevEvents
        prevEfficiency).efficiencyChangePercent =
        some (((ce - pe) / pe) * 100)) := by
  unfold calculatePercentageChanges
  refine ⟨?_, ?_, ?_, ?_, ?_, ?_⟩
  · constructor
    · intro h
      by_contra hpos
      rw [if_pos (lt_of_not_le hpos)] at h
      exact Option.noConfusion h
    · intro h
      rw [if_neg (not_lt.mpr h)]
  · intro h
    rw [if_pos h]
  · constructor
    · intro h
      by_contra hpos
      rw [if_pos (lt_of_not_le hpos)] at h
      exact Option.noConfusion h
    · intro h
      rw [if_neg (not_lt.mpr h)]
  · intro h
    rw [if_pos h]
  · constructor
    · intro h
      rcases hp : prevEfficiency with _ | pe
      · exact Or.inl rfl
      · rcases hc : current.averageEfficiency with _ | ce
        · exact Or.inr (Or.inl rfl)
        · refine Or.inr (Or.inr ⟨pe, rfl, ?_⟩)
          rw [hp, hc] at h
          simp only at h
          by_contra hpos
          rw [if_pos (lt_of_not_le hpos)] at h
          exact Option.noConfusion h
    · intro h
      rcases h with h | h | ⟨pe, hpe, hle⟩
      · rw [h]
      · rw [h]
        rcases prevEfficiency with _ | pe <;> simp
      · rw [hpe]
        rcases current.averageEfficiency with _ | ce
        · simp
        · simp only
          rw [if_neg (not_lt.mpr hle)]
  · intro pe ce hpe hce hpos
    rw [hpe, hce]
    simp only
    rw [if_pos hpos]

/-- Witness for C6 at a concrete input. -/
theorem C6_percentage_changes_witness :
    (calculatePercentageChanges
      { totalIrrigationVolumeMM := 30, totalIrrigationEvents := 2,
        averageEfficiency := some (3/4), efficiencyRange := none }
      25 2 (some (3/5))).volumeChangePercent = some 20 := by
  have h := (C6_percentage_changes
    { totalIrrigationVolumeMM := 30, totalIrrigationEvents := 2,
      averageEfficiency := some (3/4), efficiencyRange := none }
    25 2 (some (3/5))).2.1 (by norm_num)
  rw [h]
  norm_num

/-- C5: a YoY offset whose year is absent from the mapping, or present with
no positive event count, yields an incomplete comparison: flag set, every
numeric field null, a note naming the year and its label, and the
corresponding percentage-change sub-object absent; a present year with
positive events yields a complete comparison. -/
theorem C5_yoy_incompleteness (yoyData : Int → Option YoYAnalyticsData)
    (year : Int) (yearLabel : String) :
    ((yoyData year = none ∨ ∃ d, yoyData year = some d ∧ d.eventCount ≤ 0) →
      (getYoYMetrics yoyData year yearLabel).dataIncomplete = true ∧
      (getYoYMetrics yoyData year yearLabel).totalIrrigationVolumeMM = none ∧
      (getYoYMetrics yoyData year yearLabel).totalIrrigationEvents = none ∧
      (getYoYMetrics yoyData year yearLabel).averageEfficiency = none ∧
      (getYoYMetrics yoyData year yearLabel).efficiencyRange = none ∧
      ((getYoYMetrics yoyData year yearLabel).note =
          "No data available for " ++ yearLabel ++ " (" ++ toString year ++ ")" ∨
       (getYoYMetrics yoyData year yearLabel).note =
          "No events found for " ++ yearLabel ++ " (" ++ toString year ++ ")") ∧
      (∀ current other,
        (calculatePeriodComparison current (getYoYMetrics yoyData year yearLabel)
          other).vsPeriod1Y = none ∧
        (calculatePeriodComparison current other
          (getYoYMetrics yoyData year yearLabel)).vsPeriod2Y = none)) ∧
    (∀ d, yoyData year = some d → 0 < d.eventCount →
      (getYoYMetrics yoyData year yearLabel).dataIncomplete = false) := by
  constructor
  · intro h
    have hinc : getYoYMetrics yoyData year yearLabel =
        { totalIrrigationVolumeMM := none, totalIrrigationEvents := none,
          averageEfficiency := none, efficiencyRange := none,
          dataIncomplete := true,
          note := "No data available for " ++ yearLabel ++ " (" ++ toString year ++ ")" } ∨
        getYoYMetrics yoyData year yearLabel =
        { totalIrrigationVolumeMM := none, totalIrrigationEvents := none,
          averageEfficiency := none, efficiencyRange := none,
          dataIncomplete := true,
          note := "No events found for " ++ yearLabel ++ " (" ++ toString year ++ ")" } := by
      rcases h with h | ⟨d, hd, hle⟩
      · left
        unfold getYoYMetrics
        rw [h]
      · right
        unfold getYoYMetrics
        rw [hd]
        simp only [if_neg (not_lt.mpr hle)]
    rcases hinc with hinc | hinc <;>
      rw [hinc] <;>
      exact ⟨rfl, rfl, rfl, rfl, rfl, by simp,
        fun current other => ⟨by simp [calculatePeriodComparison],
          by simp [calculatePeriodComparison]⟩⟩
  · intro d hd hpos
    unfold getYoYMetrics
    rw [hd]
    simp only [if_pos hpos]

/-- Witness for C5 at a concrete mapping missing the requested year. -/
theorem C5_yoy_incompleteness_witness :
    (getYoYMetrics (fun _ => none) 2023 "previous year").dataIncomplete = true ∧
    (getYoYMetrics (fun _ => none) 2023 "previous year").totalIrrigationVolumeMM = none := by
  have h := (C5_yoy_incompleteness (fun _ => none) 2023 "previous year").1
    (Or.inl rfl)
  exact ⟨h.1, h.2.1⟩

/-- C10: every complete comparison produced by `getYoYMetrics` carries a
non-null positive event count, so the unguarded dereference of the events
pointer in the period-comparison step reads the actual count, never nil. -/
theorem C10_complete_events_present (yoyData : Int → Option YoYAnalyticsData)
    (year : Int) (yearLabel : String) :
    (getYoYMetrics yoyData year yearLabel).dataIncomplete = false →
      ∃ n, (getYoYMetrics yoyData year yearLabel).totalIrrigationEvents = some n ∧
        0 < n ∧
        (getYoYMetrics yoyData year yearLabel).totalIrrigationEvents.getD 0 = n := by
  intro hcomplete
  unfold getYoYMetrics at hcomplete ⊢
  rcases hd : yoyData year with _ | d
  · rw [hd] at hcomplete
    simp at hcomplete
  · rw [hd] at hcomplete
    dsimp only at hcomplete ⊢
    by_cases hpos : 0 < d.eventCount
    · rw [if_pos hpos]
      exact ⟨d.eventCount, rfl, hpos, rfl⟩
    · rw [if_neg hpos] at hcomplete
      simp at hcomplete

/-- Witness for C10 at a concrete complete mapping. -/
theorem C10_complete_events_present_witness :
    ∃ n, (getYoYMetrics
      (fun y => if y == 2023 then
        some { year := 2023, totalRealAmount := 25, totalNominalAmount := 30,
               eventCount := 2, avgEfficiency := some (3/5),
               minEfficiency := some (1/2), maxEfficiency := some (7/10) }
        else none) 2023 "previous year").totalIrrigationEvents = some n ∧
      0 < n ∧
      (getYoYMetrics
        (fun y => if y == 2023 then
          some { year := 2023, totalRealAmount := 25, totalNominalAmount := 30,
                 eventCount := 2, avgEfficiency := some (3/5),
                 minEfficiency := some (1/2), maxEfficiency := some (7/10) }
          else none) 2023 "previous year").totalIrrigationEvents.getD 0 = n :=
  C10_complete_events_present
    (fun y => if y == 2023 then
      some { year := 2023, totalRealAmount := 25, totalNominalAmount := 30,
             eventCount := 2, avgEfficiency := some (3/5),
             minEfficiency := some (1/2), maxEfficiency := some (7/10) }
      else none) 2023 "previous year" (by decide)

/-! ## Claim theorems: repository count and YoY anchoring -/

/-- C2 counterexample: two records of the same farm on the same day give a
returned total count of 2, while the range has a single distinct daily
bucket — the count query counts records, not buckets. -/
theorem C2_counterexample :
    (getAnalyticsForFarmByDateRange
      [ { farmID := 1, sectorID := 1, startTime := timeDate 2024 3 1 6 0 0 0,
          nominalAmount := 1, realAmount := 10 },
        { farmID := 1, sectorID := 1, startTime := timeDate 2024 3 1 18 0 0 0,
          nominalAmount := 1, realAmount := 20 } ] 1
      (timeDate 2024 3 1 0 0 0 0) (timeDate 2024 3 1 23 59 59 999999999)
      "daily" 50 0).2 = 2 ∧
    distinctBucketCount
      [ { farmID := 1, sectorID := 1, startTime := timeDate 2024 3 1 6 0 0 0,
          nominalAmount := 1, realAmount := 10 },
        { farmID := 1, sectorID := 1, startTime := timeDate 2024 3 1 18 0 0 0,
          nominalAmount := 1, realAmount := 20 } ] 1
      (timeDate 2024 3 1 0 0 0 0) (timeDate 2024 3 1 23 59 59 999999999)
      "daily" = 1 ∧
    (2 : Int) ≠ ((1 : Nat) : Int) := by
  refine ⟨by decide, by decide, by decide⟩

/-- C2 amended: the returned total count equals the number of matching
*records* in the full range (not the number of distinct buckets); it is
independent of limit and offset, and the service echoes it unchanged as the
response's pagination total count. -/
theorem C2_amended_count_semantics (db : List IrrigationRecord) (farmID : Nat)
    (startTime endTime : DateTime) (aggregation : String) (limit offset : Int) :
    (getAnalyticsForFarmByDateRange db farmID startTime endTime aggregation
        limit offset).2 =
      ((matchingRecords db farmID startTime endTime).length : Int) ∧
    (∀ limit2 offset2 : Int,
      (getAnalyticsForFarmByDateRange db farmID startTime endTime aggregation
          limit2 offset2).2 =
        (getAnalyticsForFarmByDateRange db farmID startTime endTime aggregation
          limit offset).2) ∧
    (∀ (sectorNames : Nat → String) (now : DateTime) (nowYear : Int)
        (startDate endDate : Option DateTime) (sectorID : Option Nat) (page : Int),
      (getAnalyticsService db sectorNames now nowYear farmID startDate endDate
          sectorID aggregation page limit).timeSeries.pagination.totalCount =
        ((matchingRecords db farmID (normalizeRange now startDate endDate).1
          (normalizeRange now startDate endDate).2).length : Int)) :=
  ⟨rfl, fun _ _ => rfl, fun _ _ _ _ _ _ _ => rfl⟩

/-- C1 counterexample: with wall-clock year 2025 and a requested range in
January 2023, the three YoY sub-ranges are the Januaries of 2025, 2024 and
2023 — not of 2023, 2022 and 2021 as the claim requires — and a farm whose
data lies entirely in January 2022 (the requested year minus 1) yields a
`same_period_-1` object that is incomplete and keyed to 2024, the wall-clock
year minus 1. -/
theorem C1_counterexample :
    ((yoyRanges 2025 (timeDate 2023 1 1 0 0 0 0)
        (timeDate 2023 1 31 23 59 59 999999999)).map (fun p => p.1.year) =
      [2025, 2024, 2023]) ∧
    ([2025, 2024, 2023] : List Int) ≠ [2023, 2022, 2021] ∧
    (getAnalyticsService
        [{ farmID := 1, sectorID := 1,
           startTime := timeDate 2022 1 15 6 0 0 0,
           nominalAmount := 10, realAmount := 9 }]
        (fun _ => "sector") (timeDate 2025 6 1 0 0 0 0) 2025 1
        (some (timeDate 2023 1 1 0 0 0 0)) (some (timeDate 2023 1 31 0 0 0 0))
        none "daily" 1 50).samePeriod1Y =
      some { totalIrrigationVolumeMM := none, totalIrrigationEvents := none,
             averageEfficiency := none, efficiencyRange := none,
             dataIncomplete := true,
             note := "No data available for previous year (2024)" } := by
  refine ⟨by decide, by decide, by decide⟩

/-- C1 amended: the three YoY sub-ranges substitute the year while preserving
the requested month and day, but they are anchored at the *wall-clock* year
(`time.Now().Year()`): the ranges cover years now, now−1 and now−2, the
repository result is the union of the three sub-range aggregations, and the
two comparison objects in the response are keyed to the wall-clock year minus
1 and minus 2 (coinciding with the requested year only when the request lies
in the current wall-clock year). -/
theorem C1_amended_yoy_anchoring (nowYear : Int) (startTime endTime : DateTime) :
    ((yoyRanges nowYear startTime endTime).map (fun p => (p.1.year, p.2.year)) =
      [(nowYear, nowYear), (nowYear - 1, nowYear - 1),
       (nowYear - 2, nowYear - 2)]) ∧
    ((yoyRanges nowYear startTime endTime).map
        (fun p => (p.1.month, p.1.day, p.2.month, p.2.day)) =
      [(startTime.month, startTime.day, endTime.month, endTime.day),
       (startTime.month, startTime.day, endTime.month, endTime.day),
       (startTime.month, startTime.day, endTime.month, endTime.day)]) ∧
    (∀ (db : List IrrigationRecord) (farmID : Nat) (aggregation : String),
      getYoYComparison db nowYear farmID startTime endTime aggregation =
        ((yoyRanges nowYear startTime endTime).map
          (fun p => yoyYearRows db farmID p.1 p.2)).flatten) ∧
    (∀ (db : List IrrigationRecord) (sectorNames : Nat → String) (now : DateTime)
        (farmID : Nat) (startDate endDate : Option DateTime)
        (sectorID : Option Nat) (aggregation : String) (page limit : Int),
      (getAnalyticsService db sectorNames now nowYear farmID startDate endDate
          sectorID aggregation page limit).samePeriod1Y =
        some (getYoYMetrics
          (yoyMapLookup (getYoYComparison db nowYear farmID
            (normalizeRange now startDate endDate).1
            (normalizeRange now startDate endDate).2 aggregation))
          (nowYear - 1) "previous year") ∧
      (getAnalyticsService db sectorNames now nowYear farmID startDate endDate
          sectorID aggregation page limit).samePeriod2Y =
        some (getYoYMetrics
          (yoyMapLookup (getYoYComparison db nowYear farmID
            (normalizeRange now startDate endDate).1
            (normalizeRange now startDate endDate).2 aggregation))
          (nowYear - 2) "two years ago")) :=
  ⟨rfl, rfl, fun _ _ _ => rfl, fun _ _ _ _ _ _ _ _ _ _ => ⟨rfl, rfl⟩⟩

/-! ## Claim theorems: controller boundary -/

/-- C3: evaluation at the failing input.  A request whose farm id (99999)
parses but matches no farm record (empty table) is not answered with 404:
the controller has no existence check and no 404 branch, runs the full
analytics pipeline, and replies 206 with empty current-period data. -/
theorem C3_no_404_for_missing_farm :
    analyticsControllerGetAnalytics [] (fun _ => "sector")
      (timeDate 2025 6 1 0 0 0 0) 2025 (some 99999) "daily" none (.num 50)
      (some (some (timeDate 2020 1 1 0 0 0 0)))
      (some (some (timeDate 2020 1 31 0 0 0 0))) none =
    .ok 206 (getAnalyticsService [] (fun _ => "sector")
      (timeDate 2025 6 1 0 0 0 0) 2025 99999
      (some (timeDate 2020 1 1 0 0 0 0)) (some (timeDate 2020 1 31 0 0 0 0))
      none "daily" 1 50) ∧
    (getAnalyticsService [] (fun _ => "sector")
      (timeDate 2025 6 1 0 0 0 0) 2025 99999
      (some (timeDate 2020 1 1 0 0 0 0)) (some (timeDate 2020 1 31 0 0 0 0))
      none "daily" 1 50).timeSeries.data = [] ∧
    (getAnalyticsService [] (fun _ => "sector")
      (timeDate 2025 6 1 0 0 0 0) 2025 99999
      (some (timeDate 2020 1 1 0 0 0 0)) (some (timeDate 2020 1 31 0 0 0 0))
      none "daily" 1 50).metrics.totalIrrigationEvents = 0 ∧
    (206 : Nat) ≠ 404 := by
  refine ⟨by decide, by decide, by decide, by decide⟩

/-- C8: for every request that passes validation, the controller returns the
service response unchanged with status 206 exactly when the logical OR of the
two YoY incompleteness flags holds, and 200 otherwise. -/
theorem C8_status_policy (db : List IrrigationRecord) (sectorNames : Nat → String)
    (now : DateTime) (nowYear : Int) (farmID : Nat) (aggregation : String)
    (pageParam : Option Int) (limitParam : LimitParam)
    (startDateQ endDateQ : Option DateTime) (sectorQ : Option Nat)
    (hagg : aggregation = "daily" ∨ aggregation = "weekly" ∨
      aggregation = "monthly") :
    analyticsControllerGetAnalytics db sectorNames now nowYear (some farmID)
      aggregation pageParam limitParam (startDateQ.map some) (endDateQ.map some)
      (sectorQ.map some) =
    .ok
      (if ((getAnalyticsService db sectorNames now nowYear farmID startDateQ
              endDateQ sectorQ aggregation (normalizePage pageParam)
              (normalizeLimit limitParam)).samePeriod1Y.elim false
              (fun c => c.dataIncomplete) ||
            (getAnalyticsService db sectorNames now nowYear farmID startDateQ
              endDateQ sectorQ aggregation (normalizePage pageParam)
              (normalizeLimit limitParam)).samePeriod2Y.elim false
              (fun c => c.dataIncomplete)) then 206 else 200)
      (getAnalyticsService db sectorNames now nowYear farmID startDateQ endDateQ
        sectorQ aggregation (normalizePage pageParam)
        (normalizeLimit limitParam)) := by
  rcases hagg with h | h | h <;> subst h <;>
    rcases startDateQ with _ | sd <;> rcases endDateQ with _ | ed <;>
    rcases sectorQ with _ | sq <;> rfl

/-- Witness for C8 at a concrete request. -/
theorem C8_status_policy_witness :
    analyticsControllerGetAnalytics [] (fun _ => "sector")
      (timeDate 2025 6 1 0 0 0 0) 2025 (some 1) "daily" none (.num 50)
      ((some (timeDate 2021 2 3 0 0 0 0)).map some)
      ((some (timeDate 2021 2 10 0 0 0 0)).map some)
      ((none : Option Nat).map some) =
    .ok
      (if ((getAnalyticsService [] (fun _ => "sector")
              (timeDate 2025 6 1 0 0 0 0) 2025 1 (some (timeDate 2021 2 3 0 0 0 0))
              (some (timeDate 2021 2 10 0 0 0 0)) none "daily"
              (normalizePage none)
              (normalizeLimit (.num 50))).samePeriod1Y.elim false
              (fun c => c.dataIncomplete) ||
            (getAnalyticsService [] (fun _ => "sector")
              (timeDate 2025 6 1 0 0 0 0) 2025 1 (some (timeDate 2021 2 3 0 0 0 0))
              (some (timeDate 2021 2 10 0 0 0 0)) none "daily"
              (normalizePage none)
              (normalizeLimit (.num 50))).samePeriod2Y.elim false
              (fun c => c.dataIncomplete)) then 206 else 200)
      (getAnalyticsService [] (fun _ => "sector")
        (timeDate 2025 6 1 0 0 0 0) 2025 1 (some (timeDate 2021 2 3 0 0 0 0))
        (some (timeDate 2021 2 10 0 0 0 0)) none "daily"
        (normalizePage none) (normalizeLimit (.num 50))) :=
  C8_status_policy [] (fun _ => "sector") (timeDate 2025 6 1 0 0 0 0) 2025 1
    "daily" none (.num 50) (some (timeDate 2021 2 3 0 0 0 0))
    (some (timeDate 2021 2 10 0 0 0 0)) none (Or.inl rfl)

/-- Integer ceiling division `(tc + l - 1) / l` agrees with the rational
ceiling for a nonnegative numerator and positive denominator. -/
theorem totalPages_eq_ceil (tc l : Int) (hl : 1 ≤ l) :
    (tc + l - 1) / l = ⌈(tc : ℚ) / (l : ℚ)⌉ := by
  have hl0 : (0 : Int) < l := by omega
  have hlq : (0 : ℚ) < (l : ℚ) := by exact_mod_cast hl0
  have hkey := Int.ediv_add_emod (tc + l - 1) l
  have hr0 : 0 ≤ (tc + l - 1) % l := Int.emod_nonneg _ (by omega)
  have hrl : (tc + l - 1) % l < l := Int.emod_lt_of_pos _ hl0
  symm
  rw [Int.ceil_eq_iff]
  constructor
  · rw [lt_div_iff₀ hlq]
    have h1 : ((tc + l - 1) / l - 1) * l < tc := by nlinarith
    exact_mod_cast h1
  · rw [div_le_iff₀ hlq]
    have h2 : tc ≤ ((tc + l - 1) / l) * l := by nlinarith
    exact_mod_cast h2

/-- C9: input normalization yields page ≥ 1 and limit ≥ 1 with the documented
value mapping ("all" → 10000, clamp above 1000, fallback 50), and every
successful response computes total pages as the ceiling of total count over
the normalized limit (so the division never has a zero divisor). -/
theorem C9_pagination_normalization
    (db : List IrrigationRecord) (sectorNames : Nat → String) (now : DateTime)
    (nowYear : Int) (farmID : Nat) (aggregation : String)
    (pageParam : Option Int) (limitParam : LimitParam)
    (startDateQ endDateQ : Option DateTime) (sectorQ : Option Nat) :
    1 ≤ normalizePage pageParam ∧
    1 ≤ normalizeLimit limitParam ∧
    normalizeLimit .all = 10000 ∧
    (∀ n : Int, 1000 < n → normalizeLimit (.num n) = 1000) ∧
    (∀ n : Int, 0 < n → n ≤ 1000 → normalizeLimit (.num n) = n) ∧
    (∀ n : Int, n ≤ 0 → normalizeLimit (.num n) = 50) ∧
    normalizeLimit .invalid = 50 ∧
    (∀ p : Int, p < 1 → normalizePage (some p) = 1) ∧
    normalizePage none = 1 ∧
    (∀ (status : Nat) (resp : IrrigationAnalyticsResponse),
      analyticsControllerGetAnalytics db sectorNames now nowYear (some farmID)
          aggregation pageParam limitParam (startDateQ.map some)
          (endDateQ.map some) (sectorQ.map some) = .ok status resp →
        resp.timeSeries.pagination.page = normalizePage pageParam ∧
        resp.timeSeries.pagination.limit = normalizeLimit limitParam ∧
        0 ≤ resp.timeSeries.pagination.totalCount ∧
        resp.timeSeries.pagination.totalPages =
          ⌈(resp.timeSeries.pagination.totalCount : ℚ) /
            (resp.timeSeries.pagination.limit : ℚ)⌉) := by
  have hpage : 1 ≤ normalizePage pageParam := by
    rcases pageParam with _ | p
    · decide
    · show 1 ≤ if p < 1 then 1 else p
      split <;> omega
  have hlimit : 1 ≤ normalizeLimit limitParam := by
    rcases limitParam with _ | n | _
    · decide
    · show 1 ≤ if 0 < n then (if 1000 < n then 1000 else n) else 50
      split
      · split <;> omega
      · omega
    · decide
  refine ⟨hpage, hlimit, rfl, ?_, ?_, ?_, rfl, ?_, rfl, ?_⟩
  · intro n hn
    show (if 0 < n then (if 1000 < n then 1000 else n) else 50) = 1000
    rw [if_pos (by omega), if_pos hn]
  · intro n hn0 hn1000
    show (if 0 < n then (if 1000 < n then 1000 else n) else 50) = n
    rw [if_pos hn0, if_neg (by omega)]
  · intro n hn
    show (if 0 < n then (if 1000 < n then 1000 else n) else 50) = 50
    rw [if_neg (by omega)]
  · intro p hp
    show (if p < 1 then 1 else p) = 1
    rw [if_pos hp]
  · intro status resp h
    have hok : resp = getAnalyticsService db sectorNames now nowYear farmID
        startDateQ endDateQ sectorQ aggregation (normalizePage pageParam)
        (normalizeLimit limitParam) := by
      unfold analyticsControllerGetAnalytics at h
      dsimp only at h
      by_cases hbad : (aggregation != "daily" && aggregation != "weekly" &&
          aggregation != "monthly") = true
      · rw [if_pos hbad] at h
        exact absurd h (by simp)
      · rw [if_neg hbad] at h
        rcases startDateQ with _ | sd <;> rcases endDateQ with _ | ed <;>
          rcases sectorQ with _ | sq <;>
          · dsimp only [Option.map] at h
            injection h with h1 h2
            exact h2.symm
    subst hok
    refine ⟨rfl, rfl, ?_, ?_⟩
    · exact Int.ofNat_nonneg _
    · show totalPagesOf _ _ = _
      unfold totalPagesOf
      rw [if_pos (by omega)]
      exact totalPages_eq_ceil _ _ hlimit

/-- Witness for C9 at a concrete request. -/
theorem C9_pagination_normalization_witness :
    (getAnalyticsService [] (fun _ => "sector") (timeDate 2025 6 1 0 0 0 0) 2025 1
        (some (timeDate 2021 2 3 0 0 0 0)) (some (timeDate 2021 2 10 0 0 0 0))
        none "daily" (normalizePage (some 0))
        (normalizeLimit (.num 5000))).timeSeries.pagination.totalPages =
      ⌈((getAnalyticsService [] (fun _ => "sector") (timeDate 2025 6 1 0 0 0 0) 2025 1
          (some (timeDate 2021 2 3 0 0 0 0)) (some (timeDate 2021 2 10 0 0 0 0))
          none "daily" (normalizePage (some 0))
          (normalizeLimit (.num 5000))).timeSeries.pagination.totalCount : ℚ) /
        ((getAnalyticsService [] (fun _ => "sector") (timeDate 2025 6 1 0 0 0 0) 2025 1
          (some (timeDate 2021 2 3 0 0 0 0)) (some (timeDate 2021 2 10 0 0 0 0))
          none "daily" (normalizePage (some 0))
          (normalizeLimit (.num 5000))).timeSeries.pagination.limit : ℚ)⌉ := by
  have h := (C9_pagination_normalization [] (fun _ => "sector")
    (timeDate 2025 6 1 0 0 0 0) 2025 1 "daily" (some 0) (.num 5000)
    (some (timeDate 2021 2 3 0 0 0 0)) (some (timeDate 2021 2 10 0 0 0 0))
    none).2.2.2.2.2.2.2.2.2 206
    (getAnalyticsService [] (fun _ => "sector") (timeDate 2025 6 1 0 0 0 0) 2025 1
      (some (timeDate 2021 2 3 0 0 0 0)) (some (timeDate 2021 2 10 0 0 0 0))
      none "daily" (normalizePage (some 0)) (normalizeLimit (.num 5000)))
    (by decide)
  exact h.2.2.2

/-! ## Claim theorems: volume conservation -/

theorem sum_map_filter_split {α : Type} (p : α → Bool) (v : α → Rat)
    (l : List α) :
    ((l.filter p).map v).sum + ((l.filter (fun x => !(p x))).map v).sum =
      (l.map v).sum := by
  induction l with
  | nil => simp
  | cons x xs ih =>
    by_cases h : p x = true
    · rw [List.filter_cons_of_pos h,
        List.filter_cons_of_neg (by simp [h])]
      simp only [List.map_cons, List.sum_cons]
      rw [← ih]
      ring
    · rw [List.filter_cons_of_neg h,
        List.filter_cons_of_pos (by simp [Bool.not_eq_true] at h ⊢; exact h)]
      simp only [List.map_cons, List.sum_cons]
      rw [← ih]
      ring

theorem filter_key_of_ne {α κ : Type} [BEq κ] [LawfulBEq κ] (key : α → κ)
    (k k2 : κ) (hne : k2 ≠ k) (l : List α) :
    (l.filter (fun x => !(key x == k))).filter (fun x => key x == k2) =
      l.filter (fun x => key x == k2) := by
  induction l with
  | nil => rfl
  | cons x xs ih =>
    cases hxk : (key x == k) with
    | false =>
      cases hx2 : (key x == k2) with
      | false => simp [List.filter_cons, hxk, hx2, ih]
      | true => simp [List.filter_cons, hxk, hx2, ih]
    | true =>
      have hxkeq : key x = k := eq_of_beq hxk
      have hx2 : (key x == k2) = false := by
        rw [beq_eq_false_iff_ne, hxkeq]
        exact fun h => hne h.symm
      simp [List.filter_cons, hxk, hx2, ih]

theorem sum_partition {α κ : Type} [BEq κ] [LawfulBEq κ] (key : α → κ)
    (v : α → Rat) :
    ∀ (ks : List κ) (l : List α), ks.Nodup → (∀ x ∈ l, key x ∈ ks) →
      (ks.map (fun k => ((l.filter (fun x => key x == k)).map v).sum)).sum =
        (l.map v).sum := by
  intro ks
  induction ks with
  | nil =>
    intro l _ hcov
    rcases l with _ | ⟨x, xs⟩
    · simp
    · exact absurd (hcov x (List.mem_cons_self x xs)) (List.not_mem_nil _)
  | cons k ks ih =>
    intro l hnd hcov
    rw [List.map_cons, List.sum_cons]
    have hmap : ks.map
        (fun k2 => ((l.filter (fun x => key x == k2)).map v).sum) =
        ks.map (fun k2 => (((l.filter (fun x => !(key x == k))).filter
          (fun x => key x == k2)).map v).sum) := by
      apply List.map_congr_left
      intro k2 hk2
      have hne : k2 ≠ k := by
        intro heq
        subst heq
        exact (List.nodup_cons.mp hnd).1 hk2
      rw [filter_key_of_ne key k k2 hne l]
    rw [hmap, ih (l.filter (fun x => !(key x == k))) (List.nodup_cons.mp hnd).2
      (fun x hx => by
        rcases List.mem_filter.mp hx with ⟨hxl, hnk⟩
        rcases List.mem_cons.mp (hcov x hxl) with h | h
        · exact absurd h (by simpa using hnk)
        · exact h)]
    exact sum_map_filter_split (fun x => key x == k) v l

/-- The page-local identity: converting a bucket page to time-series entries
preserves the sum of real amounts, which equals the metrics total computed
from the same page. -/
theorem convert_sum_eq (l : List AnalyticsAggregation) :
    ((convertTimeSeriesData l).map (fun entry => entry.realAmountMM)).sum =
      (calculateMetrics l).totalIrrigationVolumeMM := by
  rw [calculateMetrics_volume]
  unfold convertTimeSeriesData
  rw [List.map_map]
  rfl

/-- When the single page covers every bucket (offset 0, all keys within the
limit), the metrics volume equals the sum of real amounts over all matching
records — independent of the grouping granularity. -/
theorem repo_volume_total (db : List IrrigationRecord) (farmID : Nat)
    (startTime endTime : DateTime) (aggregation : String) (limit : Int)
    (hcover : (sortKeys (((matchingRecords db farmID startTime endTime).map
      (bucketKey aggregation)).dedup)).length ≤ limit.toNat) :
    (calculateMetrics (getAnalyticsForFarmByDateRange db farmID startTime
        endTime aggregation limit 0).1).totalIrrigationVolumeMM =
      ((matchingRecords db farmID startTime endTime).map
        (fun r => r.realAmount)).sum := by
  rw [calculateMetrics_volume]
  have hperm : List.Perm (sortKeys (((matchingRecords db farmID startTime
      endTime).map (bucketKey aggregation)).dedup))
      (((matchingRecords db farmID startTime endTime).map
        (bucketKey aggregation)).dedup) :=
    List.perm_insertionSort keyLE _
  have hpage : (getAnalyticsForFarmByDateRange db farmID startTime endTime
      aggregation limit 0).1 =
      (sortKeys (((matchingRecords db farmID startTime endTime).map
        (bucketKey aggregation)).dedup)).map
        (fun k => bucketRow k ((matchingRecords db farmID startTime
          endTime).filter (fun r => bucketKey aggregation r == k))) := by
    show ((((sortKeys _).map _).drop (0 : Int).toNat).take limit.toNat) = _
    rw [Int.toNat_zero, List.drop_zero]
    exact List.take_of_length_le (by simpa using hcover)
  rw [hpage, List.map_map]
  have hfun : ∀ k ∈ sortKeys (((matchingRecords db farmID startTime
      endTime).map (bucketKey aggregation)).dedup),
      ((fun entry => entry.totalRealAmount) ∘
        (fun k => bucketRow k ((matchingRecords db farmID startTime
          endTime).filter (fun r => bucketKey aggregation r == k)))) k =
      (((matchingRecords db farmID startTime endTime).filter
        (fun x => bucketKey aggregation x == k)).map
        (fun r => r.realAmount)).sum :=
    fun k _ => rfl
  rw [List.map_congr_left hfun]
  have hnd : (sortKeys (((matchingRecords db farmID startTime endTime).map
      (bucketKey aggregation)).dedup)).Nodup :=
    hperm.symm.nodup (List.nodup_dedup _)
  have hcov : ∀ r ∈ matchingRecords db farmID startTime endTime,
      bucketKey aggregation r ∈
        sortKeys (((matchingRecords db farmID startTime endTime).map
          (bucketKey aggregation)).dedup) := by
    intro r hr
    rw [hperm.mem_iff, List.mem_dedup]
    exact List.mem_map_of_mem _ hr
  exact sum_partition (bucketKey aggregation) (fun r => r.realAmount) _ _ hnd hcov

/-- C4 counterexample: a farm with records of 10 mm on 2024-03-01 and 20 mm
on 2024-03-02, queried over March 2024 with page 1 and limit 1, reports a
metrics total of 10 under daily aggregation but 30 under monthly aggregation:
the metrics are computed over the fetched page only, so the cross-granularity
total is not independent of the page and limit supplied. -/
theorem C4_counterexample :
    (getAnalyticsService sampleDb
      (fun _ => "sector") (timeDate 2025 6 1 0 0 0 0) 2025 1
      (some (timeDate 2024 3 1 0 0 0 0)) (some (timeDate 2024 3 31 0 0 0 0))
      none "daily" 1 1).metrics.totalIrrigationVolumeMM = 10 ∧
    (getAnalyticsService sampleDb
      (fun _ => "sector") (timeDate 2025 6 1 0 0 0 0) 2025 1
      (some (timeDate 2024 3 1 0 0 0 0)) (some (timeDate 2024 3 31 0 0 0 0))
      none "monthly" 1 1).metrics.totalIrrigationVolumeMM = 30 ∧
    (10 : Rat) ≠ 30 := by
  refine ⟨?_, ?_, by norm_num⟩
  · show (calculateMetrics (getAnalyticsForFarmByDateRange sampleDb 1
      (timeDate 2024 3 1 0 0 0 0) (timeDate 2024 3 31 23 59 59 999999999)
      "daily" 1 0).1).totalIrrigationVolumeMM = 10
    have hpage : (getAnalyticsForFarmByDateRange sampleDb 1
        (timeDate 2024 3 1 0 0 0 0) (timeDate 2024 3 31 23 59 59 999999999)
        "daily" 1 0).1 = [bucketRow (19783, 2024) [sampleRec1]] := rfl
    rw [hpage, calculateMetrics_volume]
    simp [bucketRow, sampleRec1]
  · show (calculateMetrics (getAnalyticsForFarmByDateRange sampleDb 1
      (timeDate 2024 3 1 0 0 0 0) (timeDate 2024 3 31 23 59 59 999999999)
      "monthly" 1 0).1).totalIrrigationVolumeMM = 30
    have hpage : (getAnalyticsForFarmByDateRange sampleDb 1
        (timeDate 2024 3 1 0 0 0 0) (timeDate 2024 3 31 23 59 59 999999999)
        "monthly" 1 0).1 = [bucketRow (19783, 2024) [sampleRec1, sampleRec2]] := rfl
    rw [hpage, calculateMetrics_volume]
    simp [bucketRow, sampleRec1, sampleRec2]
    norm_num

/-- C4 amended: within any single response the sum of real-amount volumes over
the time_series buckets equals the metrics total (both are computed from the
same fetched page); and whenever the page covers all buckets of the range
(page 1 and limit at least the bucket count), the total equals the sum of real
amounts over all matching records, so it agrees across daily, weekly and
monthly aggregation.  Under pagination that truncates the bucket list, the
cross-granularity equality fails (see the counterexample). -/
theorem C4_amended_volume_conservation (db : List IrrigationRecord)
    (farmID : Nat) (startTime endTime : DateTime) :
    (∀ (sectorNames : Nat → String) (now : DateTime) (nowYear : Int)
        (startDate endDate : Option DateTime) (sectorID : Option Nat)
        (aggregation : String) (page limit : Int),
      ((getAnalyticsService db sectorNames now nowYear farmID startDate endDate
          sectorID aggregation page limit).timeSeries.data.map
          (fun entry => entry.realAmountMM)).sum =
        (getAnalyticsService db sectorNames now nowYear farmID startDate endDate
          sectorID aggregation page limit).metrics.totalIrrigationVolumeMM) ∧
    (∀ (aggregation : String) (limit : Int),
      (sortKeys (((matchingRecords db farmID startTime endTime).map
          (bucketKey aggregation)).dedup)).length ≤ limit.toNat →
      (calculateMetrics (getAnalyticsForFarmByDateRange db farmID startTime
          endTime aggregation limit 0).1).totalIrrigationVolumeMM =
        ((matchingRecords db farmID startTime endTime).map
          (fun r => r.realAmount)).sum) ∧
    (∀ (g1 g2 : String) (limit1 limit2 : Int),
      (sortKeys (((matchingRecords db farmID startTime endTime).map
          (bucketKey g1)).dedup)).length ≤ limit1.toNat →
      (sortKeys (((matchingRecords db farmID startTime endTime).map
          (bucketKey g2)).dedup)).length ≤ limit2.toNat →
      (calculateMetrics (getAnalyticsForFarmByDateRange db farmID startTime
          endTime g1 limit1 0).1).totalIrrigationVolumeMM =
        (calculateMetrics (getAnalyticsForFarmByDateRange db farmID startTime
          endTime g2 limit2 0).1).totalIrrigationVolumeMM) := by
  refine ⟨?_, ?_, ?_⟩
  · intro sectorNames now nowYear startDate endDate sectorID aggregation page limit
    exact convert_sum_eq _
  · intro aggregation limit hcover
    exact repo_volume_total db farmID startTime endTime aggregation limit hcover
  · intro g1 g2 limit1 limit2 h1 h2
    rw [repo_volume_total db farmID startTime endTime g1 limit1 h1,
      repo_volume_total db farmID startTime endTime g2 limit2 h2]

/-- Witness for C4 at a concrete request whose limit covers all buckets. -/
theorem C4_amended_volume_conservation_witness :
    (calculateMetrics (getAnalyticsForFarmByDateRange sampleDb 1
        (timeDate 2024 3 1 0 0 0 0) (timeDate 2024 3 31 23 59 59 999999999)
        "daily" 50 0).1).totalIrrigationVolumeMM =
      (calculateMetrics (getAnalyticsForFarmByDateRange sampleDb 1
        (timeDate 2024 3 1 0 0 0 0) (timeDate 2024 3 31 23 59 59 999999999)
        "monthly" 50 0).1).totalIrrigationVolumeMM :=
  (C4_amended_volume_conservation sampleDb 1
    (timeDate 2024 3 1 0 0 0 0)
    (timeDate 2024 3 31 23 59 59 999999999)).2.2 "daily" "monthly" 50 50
    (by decide) (by decide)

end IrrigationAnalytics
